import Mathlib

/-!
Verification of the saved-posts collectors and the fuzzy search engine of
the saved-posts-mcps repository.

The definitions below are a shallow embedding of the Python sources:
  src/common/fuzzy_search.py   (fuzzy_word_match, fuzzy_search)
  src/reddit/scraper.py        (RedditScraper.get_saved and its parsers)
  src/x/scraper.py             (XScraper.get_bookmarks and its parsers)

Modelling conventions:
  - Python dict lookups with .get defaults become Option fields read with
    getD; Python truthiness of optional strings (None and the empty string
    are falsy) is made explicit by pyTruthyStrOpt.
  - Python string primitives (lower, split, startswith, endswith, replace)
    are re-implemented over character lists so that the kernel can
    evaluate them; the semantics is that of the Python methods on the
    inputs the scrapers use.
  - The remote server is modelled as a function from the 1-based page
    number of the fetch to the response returned for that fetch; a fetch
    that raises becomes an Except.error value.  The pagination cursor of
    each page is kept where the source consults it for loop termination.
  - rapidfuzz fuzz dot ratio is an external library call; it is kept
    abstract as a parameter sim of type String to String to Rat, so every
    theorem holds for the actual similarity function.
  - datetime values are recorded as the raw data they were built from
    (epoch seconds, or the original string for X); wall-clock reads are
    irrelevant to every claim.
-/

/-- Python str.lower, as a map over characters. -/
def pyLower (s : String) : String := String.mk (s.data.map Char.toLower)

/-- Python str.split with no separator: split on runs of whitespace and
drop the empty fragments. -/
def pySplit (s : String) : List String :=
  ((s.data.splitOnP Char.isWhitespace).map String.mk).filter (fun w => w ≠ "")

/-- Python truthiness of an optional string: None and the empty string
are falsy. -/
def pyTruthyStrOpt (s : Option String) : Bool :=
  match s with
  | none => false
  | some v => v != ""

/-- Python str.startswith. -/
def pyStartsWith (s pre : String) : Bool := pre.data.isPrefixOf s.data

/-- Python str.endswith. -/
def pyEndsWith (s suf : String) : Bool := suf.data.isSuffixOf s.data

/-- Fuel-based worker for pyReplace; the fuel is the length of the text,
which bounds the number of steps. -/
def pyReplaceAux (pat rep : List Char) : Nat → List Char → List Char
  | _, [] => []
  | 0, l => l
  | fuel + 1, c :: cs =>
    if pat.isPrefixOf (c :: cs) && !pat.isEmpty then
      rep ++ pyReplaceAux pat rep fuel ((c :: cs).drop pat.length)
    else
      c :: pyReplaceAux pat rep fuel cs

/-- Python str.replace (left-to-right, non-overlapping); the sources only
call it with a non-empty pattern. -/
def pyReplace (s pat rep : String) : String :=
  String.mk (pyReplaceAux pat.data rep.data s.data.length s.data)

/-- The Python pattern "collected[:limit] if limit else collected": a
limit of None or 0 leaves the list unchanged. -/
def truncatePy {α : Type} (limit : Option Nat) (l : List α) : List α :=
  match limit with
  | none => l
  | some n => if n = 0 then l else l.take n

/-- The Python test "limit and len(results) >= limit": false when limit is
None or 0. -/
def limitReachedPy (limit : Option Nat) (n : Nat) : Bool :=
  match limit with
  | none => false
  | some k => decide (k ≠ 0) && decide (k ≤ n)

/-- src/common/fuzzy_search.py, fuzzy_word_match.  The rapidfuzz
similarity (fuzz dot ratio) is abstracted as the sim parameter. -/
def fuzzy_word_match (sim : String → String → Rat)
    (word : String) (text : String) (threshold : Int) : Bool :=
  let text_words := pySplit (pyLower text)
  let word_lower := pyLower word
  text_words.any fun text_word =>
    (word_lower == text_word) ||
      (decide (0 < threshold) && decide (3 < word_lower.length) &&
        decide (((100 - threshold * 10 : Int) : Rat) ≤ sim word_lower text_word))

/-- src/common/fuzzy_search.py, fuzzy_search. -/
def fuzzy_search (sim : String → String → Rat)
    (text : String) (queries : List String)
    (match_all : Bool) (fuzzy_threshold : Int) : Bool :=
  if queries.isEmpty then
    true
  else
    let ms := queries.map fun q => fuzzy_word_match sim q text fuzzy_threshold
    if match_all then ms.all id else ms.any id

/-- src/common/models.py, Author. -/
structure Author where
  id : String
  username : String
  display_name : String
  avatar_url : Option String
  platform : String
deriving Repr, DecidableEq

/-- src/common/models.py, Media. -/
structure Media where
  type : String
  url : String
  thumbnail_url : Option String := none
deriving Repr, DecidableEq

/-- A datetime value, recorded as the data it was constructed from:
epoch seconds for Reddit items, the raw created_at string for X tweets
(the strptime parse, and its fall-back to the current clock on a
malformed string, read no further data). -/
inductive Timestamp where
  | fromEpochUtc (seconds : Int)
  | fromXCreatedAt (raw : String)
deriving Repr, DecidableEq

/-- src/common/models.py, RedditMetadata. -/
structure RedditMetadata where
  subreddit : String
  subreddit_id : String
  score : Int
  num_comments : Int
  is_self : Bool
  link_flair_text : Option String := none
  over_18 : Bool := false
deriving Repr, DecidableEq

/-- src/common/models.py, XMetadata. -/
structure XMetadata where
  retweet_count : Int := 0
  like_count : Int := 0
  reply_count : Int := 0
  quote_count : Int := 0
  is_retweet : Bool := false
  conversation_id : Option String := none
deriving Repr, DecidableEq

/-- The platform-specific metadata dict attached to a SavedPost. -/
inductive PostMetadata where
  | redditMeta (m : RedditMetadata)
  | xMeta (m : XMetadata)
deriving Repr, DecidableEq

/-- src/common/models.py, SavedPost. -/
structure SavedPost where
  id : String
  platform : String
  author : Author
  content : String
  url : String
  created_at : Timestamp
  saved_at : Option Timestamp := none
  media : List Media := []
  metadata : PostMetadata
deriving Repr, DecidableEq

/-- One entry of preview.images in a raw Reddit submission: the source
url, and the url of each entry of the resolutions list. -/
structure RedditPreviewImage where
  source_url : Option String := none
  resolution_urls : List (Option String) := []
deriving Repr, DecidableEq

/-- The data dict of one raw Reddit item (submission or comment); every
field a missing key leaves absent is None.  A missing or falsy preview
dict is the empty preview_images list. -/
structure RedditItemData where
  id : Option String := none
  author : Option String := none
  author_fullname : Option String := none
  title : Option String := none
  selftext : Option String := none
  is_self : Option Bool := none
  url : Option String := none
  link_title : Option String := none
  body : Option String := none
  subreddit : Option String := none
  subreddit_id : Option String := none
  score : Option Int := none
  num_comments : Option Int := none
  link_flair_text : Option String := none
  over_18 : Option Bool := none
  permalink : Option String := none
  created_utc : Option Int := none
  preview_images : List RedditPreviewImage := []
deriving Repr, DecidableEq

/-- One child of a raw Reddit listing page. -/
structure RedditChild where
  kind : Option String := none
  data : RedditItemData := {}
deriving Repr, DecidableEq

/-- A raw Reddit saved.json response: data.children and data.after (a
missing data dict collapses to no children and no after). -/
structure RedditResponse where
  children : List RedditChild := []
  after : Option String := none
deriving Repr, DecidableEq

/-- The media list built by RedditScraper._parse_submission from
preview.images: entries whose source url is missing or empty are skipped;
the thumbnail is the url of the last resolution when present and
non-empty. -/
def previewMedia : List RedditPreviewImage → List Media
  | [] => []
  | img :: rest =>
    match img.source_url with
    | none => previewMedia rest
    | some u =>
      if u != "" then
        let thumb : Option String :=
          match img.resolution_urls.getLast? with
          | none => none
          | some r => some (r.getD "")
        let thumbnail_url : Option String :=
          match thumb with
          | none => none
          | some t => if t == "" then none else some (pyReplace t "&amp;" "&")
        { type := "image", url := pyReplace u "&amp;" "&",
          thumbnail_url := thumbnail_url } :: previewMedia rest
      else
        previewMedia rest

/-- src/reddit/scraper.py, RedditScraper._parse_submission. -/
def parse_submission (d : RedditItemData) : SavedPost :=
  let author_name := d.author.getD "[deleted]"
  let author_id := d.author_fullname.getD "deleted"
  let author : Author :=
    { id := author_id, username := author_name, display_name := author_name,
      avatar_url := none, platform := "reddit" }
  let media_list := previewMedia d.preview_images
  let url := d.url.getD ""
  let media_list :=
    if (url != "") &&
        ([".jpg", ".jpeg", ".png", ".gif"].any fun ext => pyEndsWith url ext) then
      if media_list.isEmpty then
        let media_type := if pyEndsWith url ".gif" then "gif" else "image"
        media_list ++ [{ type := media_type, url := url }]
      else media_list
    else media_list
  let title := d.title.getD ""
  let selftext := d.selftext.getD ""
  let is_self := d.is_self.getD false
  let content :=
    if is_self then
      if selftext != "" then title ++ "\n\n" ++ selftext else title
    else
      title ++ "\n\n" ++ url
  let subreddit := d.subreddit.getD ""
  let permalink := d.permalink.getD ""
  let metadata : RedditMetadata :=
    { subreddit := subreddit, subreddit_id := d.subreddit_id.getD "",
      score := d.score.getD 0, num_comments := d.num_comments.getD 0,
      is_self := is_self, link_flair_text := d.link_flair_text,
      over_18 := d.over_18.getD false }
  { id := d.id.getD "", platform := "reddit", author := author,
    content := content, url := "https://reddit.com" ++ permalink,
    created_at := Timestamp.fromEpochUtc (d.created_utc.getD 0),
    media := media_list, metadata := PostMetadata.redditMeta metadata }

/-- src/reddit/scraper.py, RedditScraper._parse_comment. -/
def parse_comment (d : RedditItemData) : SavedPost :=
  let author_name := d.author.getD "[deleted]"
  let author_id := d.author_fullname.getD "deleted"
  let author : Author :=
    { id := author_id, username := author_name, display_name := author_name,
      avatar_url := none, platform := "reddit" }
  let link_title := d.link_title.getD "Unknown post"
  let body := d.body.getD ""
  let content := "[Comment on: " ++ link_title ++ "]" ++ "\n\n" ++ body
  let subreddit := d.subreddit.getD ""
  let permalink := d.permalink.getD ""
  let metadata : RedditMetadata :=
    { subreddit := subreddit, subreddit_id := d.subreddit_id.getD "",
      score := d.score.getD 0, num_comments := 0, is_self := true,
      over_18 := d.over_18.getD false }
  { id := d.id.getD "", platform := "reddit", author := author,
    content := content, url := "https://reddit.com" ++ permalink,
    created_at := Timestamp.fromEpochUtc (d.created_utc.getD 0),
    media := [], metadata := PostMetadata.redditMeta metadata }

/-- The filter_type argument of RedditScraper.get_saved. -/
inductive RedditFilter where
  | posts
  | comments
deriving Repr, DecidableEq

/-- The two filter_type guard clauses at the top of the per-child loop of
RedditScraper.get_saved. -/
def skipByFilter (ft : Option RedditFilter) (kind : Option String) : Bool :=
  match ft with
  | some RedditFilter.posts => kind != some "t3"
  | some RedditFilter.comments => kind != some "t1"
  | none => false

/-- A transport or HTTP failure raised while fetching one page. -/
structure TransportError where
  message : String := ""
deriving Repr, DecidableEq

/-- The per-child body of the collection loop of RedditScraper.get_saved:
walks the children of one page in order, skipping by filter_type, then by
the seen_ids set (keyed on data.id defaulted to the empty string), then
dispatching on kind; a child whose kind is neither t3 nor t1 consumes its
id into seen_ids without emitting a post, exactly as in the source.
Returns the final seen_ids, the posts emitted by this page in order, and
added_count. -/
def processChildren (ft : Option RedditFilter) :
    List RedditChild → List String → List String × List SavedPost × Nat
  | [], seen => (seen, [], 0)
  | c :: cs, seen =>
    if skipByFilter ft c.kind then
      processChildren ft cs seen
    else
      let itemId := c.data.id.getD ""
      if itemId ∈ seen then
        processChildren ft cs seen
      else
        let seen' := itemId :: seen
        match c.kind with
        | some k =>
          if k = "t3" then
            let r := processChildren ft cs seen'
            (r.1, parse_submission c.data :: r.2.1, r.2.2 + 1)
          else if k = "t1" then
            let r := processChildren ft cs seen'
            (r.1, parse_comment c.data :: r.2.1, r.2.2 + 1)
          else
            processChildren ft cs seen'
        | none => processChildren ft cs seen'

/-- The while loop of RedditScraper.get_saved.  The server is the fetch
function from 1-based page numbers to responses; fuel is the number of
remaining iterations allowed by max_pages.  Returns the collected posts
and the number of fetches performed.  Termination tests, in source order:
transport error, empty children, limit reached, falsy after cursor.  Note
that added_count is computed but never tested: there is no zero-new-items
break in this loop. -/
def redditCollectGo (fetch : Nat → Except TransportError RedditResponse)
    (ft : Option RedditFilter) (limit : Option Nat) :
    Nat → Nat → List String → List SavedPost → List SavedPost × Nat
  | 0, _, _, acc => (acc, 0)
  | fuel + 1, pageNum, seen, acc =>
    match fetch pageNum with
    | Except.error _ => (acc, 1)
    | Except.ok resp =>
      if resp.children.isEmpty then
        (acc, 1)
      else
        let r := processChildren ft resp.children seen
        let seen' := r.1
        let acc' := acc ++ r.2.1
        if limitReachedPy limit acc'.length then
          (acc', 1)
        else if !pyTruthyStrOpt resp.after then
          (acc', 1)
        else
          let rec' := redditCollectGo fetch ft limit fuel (pageNum + 1) seen' acc'
          (rec'.1, rec'.2 + 1)

/-- The collection phase of RedditScraper.get_saved: run the loop from
page 1 with empty seen_ids and accumulator. -/
def redditCollect (fetch : Nat → Except TransportError RedditResponse)
    (ft : Option RedditFilter) (limit : Option Nat) (maxPages : Nat) :
    List SavedPost × Nat :=
  redditCollectGo fetch ft limit maxPages 1 [] []

/-- A captured or synthesized header set. -/
def Headers : Type := List (String × String)

/-- The minimal header fallback built by RedditScraper.get_saved when no
saved.json request was captured. -/
def minimalRedditHeaders : Headers :=
  [("user-agent",
    "Mozilla/5.0 (X11; Linux x86_64; rv:133.0) Gecko/20100101 Firefox/133.0"),
   ("accept", "application/json"),
   ("accept-language", "en-US,en;q=0.5")]

/-- src/reddit/scraper.py, RedditScraper.get_saved.  The bootstrap phase
is summarized by its two observable outcomes: loginRedirect is whether
the post-navigation url contained login or register, and captured is the
header set captured by the request observer within the polling wait, when
one was.  On a login redirect the method returns the empty list at once;
with no capture it falls back to minimalRedditHeaders and still runs the
collection loop; the final list is truncated to limit when limit is
truthy. -/
def redditGetSaved (loginRedirect : Bool) (captured : Option Headers)
    (fetch : Headers → Nat → Except TransportError RedditResponse)
    (ft : Option RedditFilter) (limit : Option Nat) (maxPages : Nat) :
    List SavedPost :=
  if loginRedirect then
    []
  else
    let headers := captured.getD minimalRedditHeaders
    truncatePy limit (redditCollect (fetch headers) ft limit maxPages).1

/-- The legacy.entities media items of a raw tweet (from
extended_entities when present, else entities, as read by the source). -/
structure XMediaItem where
  type : Option String := none
  media_url_https : Option String := none
deriving Repr, DecidableEq

/-- The legacy dict of a raw tweet result. -/
structure XLegacy where
  full_text : Option String := none
  created_at : Option String := none
  media : List XMediaItem := []
  retweet_count : Option Int := none
  favorite_count : Option Int := none
  reply_count : Option Int := none
  quote_count : Option Int := none
deriving Repr, DecidableEq

/-- The user_results.result dict of a raw tweet: rest_id, the core dict
(screen_name and name) and the avatar dict (image_url).  Missing nested
dicts collapse to all-None fields. -/
structure XUserResults where
  rest_id : Option String := none
  screen_name : Option String := none
  name : Option String := none
  avatar_image_url : Option String := none
deriving Repr, DecidableEq

/-- The scalar fields of a tweet result the parser reads (after the
one-level unwrap of the tweet field for retweets and quoted tweets). -/
structure XTweetFields where
  rest_id : Option String := none
  legacy : XLegacy := {}
  user : XUserResults := {}
deriving Repr, DecidableEq

/-- One tweet_results.result value: its own fields, and the optional
wrapped tweet field the source unwraps once when present. -/
structure XResult where
  fields : XTweetFields := {}
  tweet : Option XTweetFields := none
deriving Repr, DecidableEq

/-- The content dict of one timeline entry: content.value (read by the
cursor extractor) and the chain
content.itemContent.tweet_results.result, which the source reads through
dict defaults and then tests for falsiness; a missing or empty chain is
None here. -/
structure XEntryContent where
  value : Option String := none
  result : Option XResult := none
deriving Repr, DecidableEq

/-- One entry of a timeline instruction. -/
structure XEntry where
  entryId : Option String := none
  content : XEntryContent := {}
deriving Repr, DecidableEq

/-- One instruction of the bookmark timeline. -/
structure XInstruction where
  entries : List XEntry := []
deriving Repr, DecidableEq

/-- A raw GraphQL bookmarks response:
data.bookmark_timeline_v2.timeline.instructions (missing outer dicts
collapse to no instructions). -/
structure XResponse where
  instructions : List XInstruction := []
deriving Repr, DecidableEq

/-- The media list built for one tweet from its legacy entities: photo
items become image media, video and animated_gif items become video
media with the same url as thumbnail; a missing type defaults to photo,
so only items with another explicit type are skipped. -/
def xEntityMedia : List XMediaItem → List Media
  | [] => []
  | m :: rest =>
    let media_type := m.type.getD "photo"
    if media_type = "photo" then
      { type := "image", url := m.media_url_https.getD "" } :: xEntityMedia rest
    else if media_type = "video" || media_type = "animated_gif" then
      { type := "video", url := m.media_url_https.getD "",
        thumbnail_url := m.media_url_https } :: xEntityMedia rest
    else
      xEntityMedia rest

/-- The per-entry body of XScraper._parse_graphql_response: skip the
entry when the result chain is falsy; unwrap the tweet field once;
skip when rest_id is falsy (missing or empty); otherwise build the
SavedPost exactly as the source does. -/
def parseXEntry (e : XEntry) : Option SavedPost :=
  match e.content.result with
  | none => none
  | some r0 =>
    let r := match r0.tweet with
      | some inner => inner
      | none => r0.fields
    match r.rest_id with
    | none => none
    | some tweet_id =>
      if tweet_id = "" then
        none
      else
        let username := r.user.screen_name.getD ""
        let display_name := r.user.name.getD username
        let author : Author :=
          { id := r.user.rest_id.getD username, username := username,
            display_name := display_name,
            avatar_url := r.user.avatar_image_url, platform := "x" }
        let full_text := r.legacy.full_text.getD ""
        let metrics : XMetadata :=
          { retweet_count := r.legacy.retweet_count.getD 0,
            like_count := r.legacy.favorite_count.getD 0,
            reply_count := r.legacy.reply_count.getD 0,
            quote_count := r.legacy.quote_count.getD 0 }
        some
          { id := tweet_id, platform := "x", author := author,
            content := full_text,
            url := "https://x.com/" ++ username ++ "/status/" ++ tweet_id,
            created_at := Timestamp.fromXCreatedAt (r.legacy.created_at.getD ""),
            media := xEntityMedia r.legacy.media,
            metadata := PostMetadata.xMeta metrics }

/-- src/x/scraper.py, XScraper._parse_graphql_response: all entries of
all instructions in order; entries that parse to nothing are skipped
(the per-entry try/except can only skip an entry, never abort the
page). -/
def parse_graphql_response (resp : XResponse) : List SavedPost :=
  ((resp.instructions.map fun i => i.entries).flatten).filterMap parseXEntry

/-- src/x/scraper.py, XScraper._extract_cursor: the content.value of the
first entry (in instruction then entry order) whose entryId starts with
cursor-bottom-; None when there is no such entry, and also when that
entry has no content.value. -/
def extract_cursor (resp : XResponse) : Option String :=
  match ((resp.instructions.map fun i => i.entries).flatten).find?
      (fun e => pyStartsWith (e.entryId.getD "") "cursor-bottom-") with
  | none => none
  | some e => e.content.value

/-- The per-post dedup body of the collection loop of
XScraper.get_bookmarks: walk the parsed posts of one page in order,
skipping ids already in seen_ids.  Returns the final seen_ids, the new
posts in order, and added_count. -/
def addNewPosts : List SavedPost → List String → List String × List SavedPost × Nat
  | [], seen => (seen, [], 0)
  | p :: ps, seen =>
    if p.id ∈ seen then
      addNewPosts ps seen
    else
      let r := addNewPosts ps (p.id :: seen)
      (r.1, p :: r.2.1, r.2.2 + 1)

/-- The while loop of XScraper.get_bookmarks.  Same conventions as
redditCollectGo.  Termination tests, in source order: transport error,
zero new posts added this page, limit reached, falsy extracted cursor. -/
def xCollectGo (fetch : Nat → Except TransportError XResponse)
    (limit : Option Nat) :
    Nat → Nat → List String → List SavedPost → List SavedPost × Nat
  | 0, _, _, acc => (acc, 0)
  | fuel + 1, pageNum, seen, acc =>
    match fetch pageNum with
    | Except.error _ => (acc, 1)
    | Except.ok resp =>
      let new_posts := parse_graphql_response resp
      let r := addNewPosts new_posts seen
      let seen' := r.1
      let acc' := acc ++ r.2.1
      if r.2.2 = 0 then
        (acc', 1)
      else if limitReachedPy limit acc'.length then
        (acc', 1)
      else if !pyTruthyStrOpt (extract_cursor resp) then
        (acc', 1)
      else
        let rec' := xCollectGo fetch limit fuel (pageNum + 1) seen' acc'
        (rec'.1, rec'.2 + 1)

/-- The collection phase of XScraper.get_bookmarks: run the loop from
page 1 with empty seen_ids and accumulator. -/
def xCollect (fetch : Nat → Except TransportError XResponse)
    (limit : Option Nat) (maxPages : Nat) : List SavedPost × Nat :=
  xCollectGo fetch limit maxPages 1 [] []

/-- src/x/scraper.py, XScraper.get_bookmarks.  Bootstrap conventions as
in redditGetSaved.  On a login redirect the method returns the empty
list; when no GraphQL request was captured within the polling wait it
logs an error and returns the empty list without running the collection
loop (there is no minimal-header fallback on this path); the final list
is truncated to limit when limit is truthy. -/
def xGetBookmarks (loginRedirect : Bool) (captured : Option Headers)
    (fetch : Headers → Nat → Except TransportError XResponse)
    (limit : Option Nat) (maxPages : Nat) : List SavedPost :=
  if loginRedirect then
    []
  else
    match captured with
    | none => []
    | some headers => truncatePy limit (xCollect (fetch headers) limit maxPages).1

/-- Specification-side first-seen deduplication: keep each post whose id
was not seen before, scanning left to right from an initial seen set.
The collectors are proved to emit prefixes of this. -/
def dedupFrom (seen : List String) : List SavedPost → List SavedPost
  | [] => []
  | p :: ps =>
    if p.id ∈ seen then dedupFrom seen ps
    else p :: dedupFrom (p.id :: seen) ps

/-- A server that never fails: page n of the X API is pages n. -/
def pureFetchX (pages : Nat → XResponse) :
    Nat → Except TransportError XResponse :=
  fun n => Except.ok (pages n)

/-- A server that never fails: page n of the Reddit API is pages n. -/
def pureFetchR (pages : Nat → RedditResponse) :
    Nat → Except TransportError RedditResponse :=
  fun n => Except.ok (pages n)

/-- A server that serves pages below page k and raises a transport error
from page k on. -/
def failFromX (k : Nat) (pages : Nat → XResponse) (e : TransportError) :
    Nat → Except TransportError XResponse :=
  fun n => if n < k then Except.ok (pages n) else Except.error e

/-- A server that serves pages below page k and raises a transport error
from page k on. -/
def failFromR (k : Nat) (pages : Nat → RedditResponse) (e : TransportError) :
    Nat → Except TransportError RedditResponse :=
  fun n => if n < k then Except.ok (pages n) else Except.error e

/-- The posts parsed from an Except page: none on a transport error. -/
def xPagePosts (page : Except TransportError XResponse) : List SavedPost :=
  match page with
  | Except.error _ => []
  | Except.ok resp => parse_graphql_response resp

/-- The concatenated parsed posts of X pages pageNum, pageNum+1, ...,
pageNum+fuel-1, in scan order. -/
def xItemsRange (pages : Nat → XResponse) : Nat → Nat → List SavedPost
  | _, 0 => []
  | pageNum, fuel + 1 =>
    parse_graphql_response (pages pageNum) ++ xItemsRange pages (pageNum + 1) fuel

/-- The post a well-formed Reddit child (kind t3 or t1) is parsed to. -/
def redditChildPost (c : RedditChild) : SavedPost :=
  if c.kind = some "t1" then parse_comment c.data else parse_submission c.data

/-- Whether every child of the page is a submission or a comment. -/
def redditWellFormed (resp : RedditResponse) : Bool :=
  resp.children.all fun c => c.kind == some "t3" || c.kind == some "t1"

/-- The concatenated parsed posts of Reddit pages pageNum, ...,
pageNum+fuel-1 in scan order, for well-formed pages. -/
def redditItemsRange (pages : Nat → RedditResponse) : Nat → Nat → List SavedPost
  | _, 0 => []
  | pageNum, fuel + 1 =>
    (pages pageNum).children.map redditChildPost ++
      redditItemsRange pages (pageNum + 1) fuel

/-- A demonstration Reddit submission with id a. -/
def demoRedditDataA : RedditItemData :=
  { id := some "a", author := some "alice", title := some "hello",
    selftext := some "world", is_self := some true,
    permalink := some "/r/demo/a", created_utc := some 1700000000 }

/-- A demonstration Reddit page holding only the submission a, with a
continuation cursor present. -/
def demoRedditPageDup : RedditResponse :=
  { children := [{ kind := some "t3", data := demoRedditDataA }],
    after := some "c1" }

/-- A demonstration Reddit page whose single submission has no id field. -/
def demoRedditPageNoId : RedditResponse :=
  { children := [{ kind := some "t3",
                   data := { title := some "orphan", is_self := some true } }],
    after := none }

/-- A demonstration timeline entry holding the tweet with rest id t1. -/
def demoXEntryTweet : XEntry :=
  { entryId := some "tweet-1",
    content := { result := some { fields :=
      { rest_id := some "100",
        legacy := { full_text := some "hello x", created_at := some "Mon Jan 01 00:00:00 +0000 2024" },
        user := { rest_id := some "u1", screen_name := some "bob", name := some "Bob" } } } } }

/-- A demonstration bookmark cursor entry. -/
def demoXEntryCursor : XEntry :=
  { entryId := some "cursor-bottom-9",
    content := { value := some "next" } }

/-- A demonstration X response with one tweet and a bottom cursor. -/
def demoXResponse : XResponse :=
  { instructions := [{ entries := [demoXEntryTweet, demoXEntryCursor] }] }

/-- A demonstration X server returning the same single-tweet page for
every request, under any header set. -/
def demoXFetch : Headers → Nat → Except TransportError XResponse :=
  fun _ _ => Except.ok demoXResponse

/-- A demonstration captured header set. -/
def demoHeaders : Headers := []

/-- The SavedPost that parsing demoXResponse yields. -/
def demoXParsedPost : SavedPost :=
  { id := "100", platform := "x",
    author := { id := "u1", username := "bob", display_name := "Bob",
                avatar_url := none, platform := "x" },
    content := "hello x",
    url := "https://x.com/bob/status/100",
    created_at := Timestamp.fromXCreatedAt "Mon Jan 01 00:00:00 +0000 2024",
    media := [],
    metadata := PostMetadata.xMeta {} }

theorem pySplit_mem_ne_empty {s w : String} (h : w ∈ pySplit s) : w ≠ "" := by
  have := List.mem_filter.mp h
  simpa using this.2

theorem list_any_ext {α : Type} (l : List α) (f g : α → Bool)
    (h : ∀ x ∈ l, f x = g x) : l.any f = l.any g := by
  induction l with
  | nil => rfl
  | cons a t ih =>
    simp only [List.any_cons]
    rw [h a (by simp), ih fun x hx => h x (by simp [hx])]

theorem list_all_map_id {α : Type} (l : List α) (f : α → Bool) :
    (l.map f).all id = l.all f := by
  induction l with
  | nil => rfl
  | cons a t ih => simp only [List.map_cons, List.all_cons, ih, id]

theorem list_any_map_id {α : Type} (l : List α) (f : α → Bool) :
    (l.map f).any id = l.any f := by
  induction l with
  | nil => rfl
  | cons a t ih => simp only [List.map_cons, List.any_cons, ih, id]

theorem fuzzy_word_match_empty_word (sim : String → String → Rat)
    (text : String) (threshold : Int) :
    fuzzy_word_match sim "" text threshold = false := by
  have hlow : pyLower "" = "" := rfl
  simp only [fuzzy_word_match, hlow]
  rw [List.any_eq_false]
  intro x hx
  have hne : x ≠ "" := pySplit_mem_ne_empty hx
  have hbeq : (("" : String) == x) = false := by
    simp [beq_eq_false_iff_ne]
    exact fun hh => hne hh.symm
  have hlen : ¬ (3 < ("" : String).length) := by decide
  simp [hbeq, hlen]

/-- C6: fuzzy matching is attempted only when the threshold is positive
and the lowercased query term is longer than 3 characters; when
attempted, a whitespace token of the lowercased text fuzzy-matches iff
its similarity to the term is at least 100 minus threshold times 10.  A
term of length at most 3 never fuzzy-matches even with a positive
threshold (only exact token equality applies), and with a non-positive
threshold no term ever fuzzy-matches. -/
theorem C6_theorem (sim : String → String → Rat)
    (word text : String) (threshold : Int) :
    (fuzzy_word_match sim word text threshold = true ↔
      ∃ tok ∈ pySplit (pyLower text), pyLower word = tok ∨
        (0 < threshold ∧ 3 < (pyLower word).length ∧
          ((100 - threshold * 10 : Int) : Rat) ≤ sim (pyLower word) tok)) ∧
    (threshold ≤ 0 →
      fuzzy_word_match sim word text threshold =
        (pySplit (pyLower text)).any fun tw => pyLower word == tw) ∧
    ((pyLower word).length ≤ 3 →
      fuzzy_word_match sim word text threshold =
        (pySplit (pyLower text)).any fun tw => pyLower word == tw) := by
  refine ⟨?_, ?_, ?_⟩
  · simp only [fuzzy_word_match, List.any_eq_true, Bool.or_eq_true,
      Bool.and_eq_true, beq_iff_eq, decide_eq_true_iff]
    constructor
    · rintro ⟨tok, hm, h⟩
      exact ⟨tok, hm, by tauto⟩
    · rintro ⟨tok, hm, h⟩
      exact ⟨tok, hm, by tauto⟩
  · intro hle
    have h0 : ¬ (0 < threshold) := by omega
    apply list_any_ext
    intro x hx
    simp [h0]
  · intro hle
    have h3 : ¬ (3 < (pyLower word).length) := by omega
    apply list_any_ext
    intro x hx
    simp [h3]

/-- C6 witness: the two conditional conjuncts evaluated at concrete
inputs. -/
theorem C6_witness :
    (fuzzy_word_match (fun _ _ => (90 : Rat)) "the" "over the hill" 2 =
      (pySplit (pyLower "over the hill")).any fun tw => pyLower "the" == tw) ∧
    (fuzzy_word_match (fun _ _ => (90 : Rat)) "python" "I love pythn" 0 =
      (pySplit (pyLower "I love pythn")).any fun tw => pyLower "python" == tw) := by
  constructor
  · exact (C6_theorem (fun _ _ => (90 : Rat)) "the" "over the hill" 2).2.2 (by decide)
  · exact (C6_theorem (fun _ _ => (90 : Rat)) "python" "I love pythn" 0).2.1 (by decide)

/-- C8: with an empty query list the search returns true; with a
non-empty query list the result is the conjunction of the per-query
results under match_all, and their disjunction otherwise, each per-query
result being fuzzy_word_match of the query against the text. -/
theorem C8_theorem (sim : String → String → Rat)
    (text : String) (match_all : Bool) (fuzzy_threshold : Int)
    (q : String) (qs : List String) :
    fuzzy_search sim text [] match_all fuzzy_threshold = true ∧
    fuzzy_search sim text (q :: qs) match_all fuzzy_threshold =
      (if match_all then
        (q :: qs).all fun qq => fuzzy_word_match sim qq text fuzzy_threshold
      else
        (q :: qs).any fun qq => fuzzy_word_match sim qq text fuzzy_threshold) := by
  constructor
  · rfl
  · cases match_all <;>
      simp only [fuzzy_search, List.isEmpty_cons, Bool.false_eq_true, if_false,
        list_all_map_id, list_any_map_id, if_true]

/-- C9: a raw Reddit comment with parent title t and body b is normalized
to a post whose content is exactly the bracketed parent-title marker,
two newlines, then the body. -/
theorem C9_theorem (d : RedditItemData) (t b : String)
    (hTitle : d.link_title = some t) (hBody : d.body = some b) :
    (parse_comment d).content = "[Comment on: " ++ t ++ "]" ++ "\n\n" ++ b := by
  simp [parse_comment, hTitle, hBody]

/-- C9 witness: the comment content formula at a concrete raw comment. -/
theorem C9_witness :
    (parse_comment { link_title := some "Great thread", body := some "I agree" }).content =
      "[Comment on: " ++ "Great thread" ++ "]" ++ "\n\n" ++ "I agree" :=
  C9_theorem _ "Great thread" "I agree" rfl rfl

/-- C10: the empty-string query term matches no token of any text, so
under match_all the search returns false whenever the empty string is
among the queries. -/
theorem C10_theorem (sim : String → String → Rat)
    (text : String) (fuzzy_threshold : Int) (qs : List String)
    (hmem : "" ∈ qs) :
    fuzzy_search sim text qs true fuzzy_threshold = false := by
  have hne : qs ≠ [] := List.ne_nil_of_mem hmem
  have hempty : qs.isEmpty = false := by
    cases qs with
    | nil => exact absurd rfl hne
    | cons a t => rfl
  simp only [fuzzy_search, hempty, Bool.false_eq_true, if_false, if_true]
  rw [List.all_eq_false]
  refine ⟨fuzzy_word_match sim "" text fuzzy_threshold, List.mem_map_of_mem _ hmem, ?_⟩
  simp [fuzzy_word_match_empty_word]

/-- C10 witness: a concrete AND search containing the empty query term
returns false. -/
theorem C10_witness :
    fuzzy_search (fun _ _ => (100 : Rat)) "some text here" ["text", ""] true 2 = false :=
  C10_theorem (fun _ _ => (100 : Rat)) "some text here" 2 ["text", ""] (by decide)

/-- C1 counterexample: a Reddit server that returns the same non-empty
page (one already-seen submission, cursor present) on every request.
From page 2 on, every page contributes zero new items, yet the collector
keeps fetching until max_pages (here 5) is exhausted instead of stopping
after the second page: the Reddit loop never tests added_count. -/
theorem C1_counterexample :
    (redditCollect (fun _ => Except.ok demoRedditPageDup) none none 5).2 = 5 ∧
    2 < (redditCollect (fun _ => Except.ok demoRedditPageDup) none none 5).2 := by
  constructor
  · decide
  · decide

/-- C2 counterexample: with navigation succeeding and no captured
GraphQL request, the X collector returns the empty list without
collecting, although the same server yields a bookmark when collection
runs with any captured headers: there is no minimal-header fallback on
the X path. -/
theorem C2_counterexample :
    xGetBookmarks false none demoXFetch none 5 = [] ∧
    xGetBookmarks false (some demoHeaders) demoXFetch none 5 ≠ [] := by
  constructor
  · decide
  · decide

/-- C3 counterexample: a Reddit page whose single submission has no id
field still contributes a post to the output (with the empty string as
id); Reddit normalization never returns None and the collector does not
drop the item. -/
theorem C3_counterexample :
    (redditGetSaved false (some demoHeaders)
        (fun _ _ => Except.ok demoRedditPageNoId) none none 5).map
      (fun p => p.id) = [""] := by
  decide

theorem addNewPosts_seen_mem (x : String) :
    ∀ (l : List SavedPost) (s : List String),
      x ∈ (addNewPosts l s).1 ↔ x ∈ s ∨ x ∈ l.map (fun p => p.id) := by
  intro l
  induction l with
  | nil => intro s; simp [addNewPosts]
  | cons p ps ih =>
    intro s
    by_cases h : p.id ∈ s
    · rw [show addNewPosts (p :: ps) s = addNewPosts ps s by simp [addNewPosts, h]]
      rw [ih]
      simp only [List.map_cons, List.mem_cons]
      constructor
      · tauto
      · rintro (hs | he | ht)
        · exact Or.inl hs
        · exact Or.inl (he ▸ h)
        · exact Or.inr ht
    · rw [show (addNewPosts (p :: ps) s).1 = (addNewPosts ps (p.id :: s)).1 by
          simp [addNewPosts, h]]
      rw [ih]
      simp only [List.mem_cons, List.map_cons]
      tauto

theorem addNewPosts_all_dup :
    ∀ (l : List SavedPost) (s : List String),
      (∀ p ∈ l, p.id ∈ s) → addNewPosts l s = (s, [], 0) := by
  intro l
  induction l with
  | nil => intro s _; rfl
  | cons p ps ih =>
    intro s h
    have hp : p.id ∈ s := h p (by simp)
    rw [show addNewPosts (p :: ps) s = addNewPosts ps s by simp [addNewPosts, hp]]
    exact ih s fun q hq => h q (by simp [hq])

theorem addNewPosts_emitted :
    ∀ (l : List SavedPost) (s : List String),
      (addNewPosts l s).2.1 = dedupFrom s l := by
  intro l
  induction l with
  | nil => intro s; rfl
  | cons p ps ih =>
    intro s
    by_cases h : p.id ∈ s <;> simp [addNewPosts, dedupFrom, h, ih]

theorem dedupFrom_congr :
    ∀ (l : List SavedPost) (s t : List String),
      (∀ x, x ∈ s ↔ x ∈ t) → dedupFrom s l = dedupFrom t l := by
  intro l
  induction l with
  | nil => intro s t _; rfl
  | cons p ps ih =>
    intro s t hst
    by_cases h : p.id ∈ s
    · have h' : p.id ∈ t := (hst p.id).mp h
      simp [dedupFrom, h, h', ih s t hst]
    · have h' : p.id ∉ t := fun hc => h ((hst p.id).mpr hc)
      simp only [dedupFrom, if_neg h, if_neg h']
      rw [ih (p.id :: s) (p.id :: t) fun x => by simp [hst x]]

theorem dedupFrom_append :
    ∀ (l₁ l₂ : List SavedPost) (s : List String),
      dedupFrom s (l₁ ++ l₂) =
        dedupFrom s l₁ ++ dedupFrom (addNewPosts l₁ s).1 l₂ := by
  intro l₁
  induction l₁ with
  | nil => intro l₂ s; simp [dedupFrom, addNewPosts]
  | cons p ps ih =>
    intro l₂ s
    by_cases h : p.id ∈ s
    · simp only [List.cons_append, dedupFrom, if_pos h, List.append_eq]
      rw [ih]
      congr 1
      simp [addNewPosts, h]
    · simp only [List.cons_append, dedupFrom, if_neg h, List.append_eq]
      rw [ih]
      congr 2
      simp [addNewPosts, h]

theorem dedupFrom_ids_nodup :
    ∀ (l : List SavedPost) (s : List String),
      ((dedupFrom s l).map (fun p => p.id)).Nodup ∧
        ∀ p ∈ dedupFrom s l, p.id ∉ s := by
  intro l
  induction l with
  | nil => intro s; simp [dedupFrom]
  | cons p ps ih =>
    intro s
    by_cases h : p.id ∈ s
    · simp only [dedupFrom, if_pos h]
      exact ih s
    · simp only [dedupFrom, if_neg h, List.map_cons, List.nodup_cons]
      obtain ⟨hnd, hnotin⟩ := ih (p.id :: s)
      refine ⟨⟨?_, hnd⟩, ?_⟩
      · intro hc
        obtain ⟨q, hq, hqid⟩ := List.mem_map.mp hc
        exact hnotin q hq (hqid ▸ by simp)
      · intro q hq
        rcases List.mem_cons.mp hq with hq1 | hq2
        · exact hq1 ▸ h
        · intro hc
          exact hnotin q hq2 (by simp [hc])

theorem prefix_append_left {α : Type} (l : List α) {r t : List α}
    (h : r <+: t) : l ++ r <+: l ++ t := by
  obtain ⟨u, hu⟩ := h
  exact ⟨u, by rw [← hu, List.append_assoc]⟩

theorem xCollectGo_count_le (fetch : Nat → Except TransportError XResponse)
    (limit : Option Nat) :
    ∀ (fuel pageNum : Nat) (seen : List String) (acc : List SavedPost),
      (xCollectGo fetch limit fuel pageNum seen acc).2 ≤ fuel := by
  intro fuel
  induction fuel with
  | zero => intro _ _ _; exact Nat.le_refl 0
  | succ n ih =>
    intro pageNum seen acc
    simp only [xCollectGo]
    cases hf : fetch pageNum with
    | error e => exact Nat.succ_le_succ (Nat.zero_le n)
    | ok resp =>
      dsimp only
      split
      · exact Nat.succ_le_succ (Nat.zero_le n)
      · split
        · exact Nat.succ_le_succ (Nat.zero_le n)
        · split
          · exact Nat.succ_le_succ (Nat.zero_le n)
          · exact Nat.succ_le_succ (ih (pageNum + 1) _ _)

theorem redditCollectGo_count_le
    (fetch : Nat → Except TransportError RedditResponse)
    (ft : Option RedditFilter) (limit : Option Nat) :
    ∀ (fuel pageNum : Nat) (seen : List String) (acc : List SavedPost),
      (redditCollectGo fetch ft limit fuel pageNum seen acc).2 ≤ fuel := by
  intro fuel
  induction fuel with
  | zero => intro _ _ _; exact Nat.le_refl 0
  | succ n ih =>
    intro pageNum seen acc
    simp only [redditCollectGo]
    cases hf : fetch pageNum with
    | error e => exact Nat.succ_le_succ (Nat.zero_le n)
    | ok resp =>
      dsimp only
      split
      · exact Nat.succ_le_succ (Nat.zero_le n)
      · split
        · exact Nat.succ_le_succ (Nat.zero_le n)
        · split
          · exact Nat.succ_le_succ (Nat.zero_le n)
          · exact Nat.succ_le_succ (ih (pageNum + 1) _ _)

/-- C5: under any server behaviour, including one that always returns a
valid non-empty cursor and always-new items, each collection loop
performs at most max_pages fetches.  The loops are total Lean functions,
so collection always halts. -/
theorem C5_theorem (fetchX : Nat → Except TransportError XResponse)
    (fetchR : Nat → Except TransportError RedditResponse)
    (ft : Option RedditFilter) (limitX limitR : Option Nat) (maxPages : Nat) :
    (xCollect fetchX limitX maxPages).2 ≤ maxPages ∧
    (redditCollect fetchR ft limitR maxPages).2 ≤ maxPages :=
  ⟨xCollectGo_count_le fetchX limitX maxPages 1 [] [],
   redditCollectGo_count_le fetchR ft limitR maxPages 1 [] []⟩

/-- C2 (amended): when navigation succeeds and no request matching the
target pattern is captured, the Reddit collector falls back to the
minimal synthesized header set and proceeds with collection, while the
X collector aborts and returns the empty list without collecting. -/
theorem C2_theorem :
    (∀ (fetch : Headers → Nat → Except TransportError RedditResponse)
        (ft : Option RedditFilter) (limit : Option Nat) (maxPages : Nat),
      redditGetSaved false none fetch ft limit maxPages =
        truncatePy limit
          (redditCollect (fetch minimalRedditHeaders) ft limit maxPages).1) ∧
    (∀ (fetch : Headers → Nat → Except TransportError XResponse)
        (limit : Option Nat) (maxPages : Nat),
      xGetBookmarks false none fetch limit maxPages = []) := by
  constructor
  · intro fetch ft limit maxPages
    rfl
  · intro fetch limit maxPages
    rfl

/-- C1 (amended): the X collector stops at any page contributing zero
new items: at every page position and every loop state, if each post
parsed from the fetched page has an id already in the seen set (the page
is empty or all duplicates), the loop terminates at that page, adding
nothing and fetching no further page, without requiring cursor absence;
consequently, at run level, two consecutive pages whose items are all
duplicates of already-seen ids stop the run after at most the second
fetch.  The Reddit collector has no such test (see the counterexample):
it continues past an all-duplicate page as long as a cursor is present,
stopping only on an empty page, a reached limit, a missing cursor,
exhausted max_pages, or a fetch error. -/
theorem C1_theorem :
    (∀ (fetch : Nat → Except TransportError XResponse) (limit : Option Nat)
        (fuel pageNum : Nat) (seen : List String) (acc : List SavedPost),
      (∀ p ∈ xPagePosts (fetch pageNum), p.id ∈ seen) →
      xCollectGo fetch limit (fuel + 1) pageNum seen acc = (acc, 1)) ∧
    (∀ (fetch : Nat → Except TransportError XResponse) (limit : Option Nat)
        (maxPages : Nat),
      (∀ p ∈ xPagePosts (fetch 2),
        p.id ∈ (xPagePosts (fetch 1)).map fun q => q.id) →
      (xCollect fetch limit maxPages).2 ≤ 2) := by
  have ha : ∀ (fetch : Nat → Except TransportError XResponse)
      (limit : Option Nat) (fuel pageNum : Nat) (seen : List String)
      (acc : List SavedPost),
      (∀ p ∈ xPagePosts (fetch pageNum), p.id ∈ seen) →
      xCollectGo fetch limit (fuel + 1) pageNum seen acc = (acc, 1) := by
    intro fetch limit fuel pageNum seen acc hdup
    simp only [xCollectGo]
    cases hf : fetch pageNum with
    | error e => rfl
    | ok resp =>
      have hall : ∀ p ∈ parse_graphql_response resp, p.id ∈ seen := by
        intro p hp
        exact hdup p (by simpa [xPagePosts, hf] using hp)
      have hz := addNewPosts_all_dup (parse_graphql_response resp) seen hall
      dsimp only
      rw [hz]
      simp
  refine ⟨ha, ?_⟩
  intro fetch limit maxPages hdup
  unfold xCollect
  cases maxPages with
  | zero => simp [xCollectGo]
  | succ n =>
    simp only [xCollectGo]
    cases h1 : fetch 1 with
    | error e => dsimp only; omega
    | ok resp1 =>
      dsimp only
      split
      · dsimp only; omega
      · split
        · dsimp only; omega
        · split
          · dsimp only; omega
          · have hseen : ∀ p ∈ xPagePosts (fetch 2),
                p.id ∈ (addNewPosts (parse_graphql_response resp1) []).1 := by
              intro p hp
              have hd := hdup p hp
              rw [addNewPosts_seen_mem]
              right
              simpa [xPagePosts, h1] using hd
            cases n with
            | zero => simp [xCollectGo]
            | succ m =>
              have h12 : (1 + 1 : Nat) = 2 := rfl
              rw [h12]
              rw [ha fetch limit m 2
                (addNewPosts (parse_graphql_response resp1) []).1
                ([] ++ (addNewPosts (parse_graphql_response resp1) []).2.1) hseen]

/-- C1 witness: against a server repeating the same single-tweet page,
the zero-new stop applies at an arbitrary page position (here page 7)
once the tweet id is in the seen set, and the run-level corollary bounds
the whole collection at 2 fetches. -/
theorem C1_witness :
    xCollectGo (fun _ => Except.ok demoXResponse) none 3 7 ["100"] [] =
      ([], 1) ∧
    (xCollect (fun _ => Except.ok demoXResponse) none 5).2 ≤ 2 :=
  ⟨C1_theorem.1 (fun _ => Except.ok demoXResponse) none 2 7 ["100"] []
      (by decide),
   C1_theorem.2 (fun _ => Except.ok demoXResponse) none 5 (by decide)⟩

/-- C3 (amended): X tweet normalization yields no post with a missing or
empty id (entries whose rest_id is absent or empty are silently
dropped, and parsing never raises); Reddit normalization, by contrast,
never returns None: both submission and comment parsers always build a
post whose id is the raw id defaulted to the empty string, so a
missing-id Reddit item is kept with an empty-string id rather than
dropped. -/
theorem C3_theorem :
    (∀ (resp : XResponse) (p : SavedPost),
        p ∈ parse_graphql_response resp → p.id ≠ "") ∧
    (∀ d : RedditItemData,
        (parse_submission d).id = d.id.getD "" ∧
        (parse_comment d).id = d.id.getD "") := by
  constructor
  · intro resp p hp
    simp only [parse_graphql_response, List.mem_filterMap] at hp
    obtain ⟨e, _, he⟩ := hp
    unfold parseXEntry at he
    split at he
    · exact absurd he (by simp)
    · dsimp only at he
      split at he
      · exact absurd he (by simp)
      · split at he
        · exact absurd he (by simp)
        · rename_i r0 r tid hne
          obtain rfl := Option.some_injective _ he
          simpa using hne
  · intro d
    exact ⟨rfl, rfl⟩

/-- C3 witness: the demonstration tweet, which belongs to the parse of
the demonstration response, has a non-empty id; and the id equation for
a concrete Reddit submission. -/
theorem C3_witness :
    demoXParsedPost ∈ parse_graphql_response demoXResponse ∧
    demoXParsedPost.id ≠ "" ∧
    (parse_submission demoRedditDataA).id = demoRedditDataA.id.getD "" :=
  ⟨by decide,
   C3_theorem.1 demoXResponse demoXParsedPost (by decide),
   (C3_theorem.2 demoRedditDataA).1⟩

theorem xCollectGo_failFrom (pages : Nat → XResponse) (e : TransportError)
    (limit : Option Nat) (k : Nat) :
    ∀ (fuel pageNum : Nat) (seen : List String) (acc : List SavedPost),
      (xCollectGo (failFromX k pages e) limit fuel pageNum seen acc).1 =
        (xCollectGo (pureFetchX pages) limit (min fuel (k - pageNum))
          pageNum seen acc).1 := by
  intro fuel
  induction fuel with
  | zero =>
    intro pageNum seen acc
    simp [xCollectGo, Nat.zero_min]
  | succ n ih =>
    intro pageNum seen acc
    by_cases hpk : pageNum < k
    · have hmin : min (n + 1) (k - pageNum) = min n (k - (pageNum + 1)) + 1 := by
        omega
      rw [hmin]
      simp only [xCollectGo, failFromX, pureFetchX, if_pos hpk]
      split
      · rfl
      · split
        · rfl
        · split
          · rfl
          · dsimp only
            rw [ih (pageNum + 1) _ _]
    · have hz : min (n + 1) (k - pageNum) = 0 := by omega
      rw [hz]
      simp [xCollectGo, failFromX, if_neg hpk]

theorem redditCollectGo_failFrom (pages : Nat → RedditResponse)
    (e : TransportError) (ft : Option RedditFilter) (limit : Option Nat)
    (k : Nat) :
    ∀ (fuel pageNum : Nat) (seen : List String) (acc : List SavedPost),
      (redditCollectGo (failFromR k pages e) ft limit fuel pageNum seen acc).1 =
        (redditCollectGo (pureFetchR pages) ft limit (min fuel (k - pageNum))
          pageNum seen acc).1 := by
  intro fuel
  induction fuel with
  | zero =>
    intro pageNum seen acc
    simp [redditCollectGo, Nat.zero_min]
  | succ n ih =>
    intro pageNum seen acc
    by_cases hpk : pageNum < k
    · have hmin : min (n + 1) (k - pageNum) = min n (k - (pageNum + 1)) + 1 := by
        omega
      rw [hmin]
      simp only [redditCollectGo, failFromR, pureFetchR, if_pos hpk]
      split
      · rfl
      · split
        · rfl
        · split
          · rfl
          · dsimp only
            rw [ih (pageNum + 1) _ _]
    · have hz : min (n + 1) (k - pageNum) = 0 := by omega
      rw [hz]
      simp [redditCollectGo, failFromR, if_neg hpk]

/-- C7: a transport failure striking at page k of a run behaves exactly
like a clean run bounded to the successfully fetched prefix: the posts
collected equal those of an error-free run over at most k-1 pages, so a
mid-collection fetch failure (like exhausted max_pages) yields the
partial accumulated list as a valid result, and no exception reaches
the caller (both collectors are total functions into plain lists).
This holds for both the Reddit and the X collectors. -/
theorem C7_theorem (pagesX : Nat → XResponse) (pagesR : Nat → RedditResponse)
    (eX eR : TransportError) (k : Nat) (ft : Option RedditFilter)
    (limitX limitR : Option Nat) (maxPages : Nat) :
    (xCollect (failFromX k pagesX eX) limitX maxPages).1 =
      (xCollect (pureFetchX pagesX) limitX (min maxPages (k - 1))).1 ∧
    (redditCollect (failFromR k pagesR eR) ft limitR maxPages).1 =
      (redditCollect (pureFetchR pagesR) ft limitR (min maxPages (k - 1))).1 :=
  ⟨xCollectGo_failFrom pagesX eX limitX k maxPages 1 [] [],
   redditCollectGo_failFrom pagesR eR ft limitR k maxPages 1 [] []⟩

theorem redditChildPost_id (c : RedditChild) :
    (redditChildPost c).id = c.data.id.getD "" := by
  unfold redditChildPost
  split
  · rfl
  · rfl

theorem processChildren_wf :
    ∀ (cs : List RedditChild) (seen : List String),
      (∀ c ∈ cs, c.kind = some "t3" ∨ c.kind = some "t1") →
      processChildren none cs seen = addNewPosts (cs.map redditChildPost) seen := by
  intro cs
  induction cs with
  | nil => intro seen _; rfl
  | cons c cs ih =>
    intro seen h
    have hc := h c (by simp)
    have hcs : ∀ x ∈ cs, x.kind = some "t3" ∨ x.kind = some "t1" :=
      fun x hx => h x (by simp [hx])
    have hskip : skipByFilter none c.kind = false := rfl
    have hskipAll : ∀ k : Option String, skipByFilter none k = false := fun _ => rfl
    rcases hc with h3 | h1
    · have hpost : redditChildPost c = parse_submission c.data := by
        simp [redditChildPost, h3]
      by_cases hm : c.data.id.getD "" ∈ seen
      · rw [show processChildren none (c :: cs) seen = processChildren none cs seen by
            simp [processChildren, hskip, hm]]
        rw [show addNewPosts ((c :: cs).map redditChildPost) seen =
              addNewPosts (cs.map redditChildPost) seen by
            simp [addNewPosts, redditChildPost_id, hm]]
        exact ih seen hcs
      · have hL : processChildren none (c :: cs) seen =
            ((processChildren none cs (c.data.id.getD "" :: seen)).1,
             parse_submission c.data ::
               (processChildren none cs (c.data.id.getD "" :: seen)).2.1,
             (processChildren none cs (c.data.id.getD "" :: seen)).2.2 + 1) := by
          simp [processChildren, hskipAll, hm, h3]
        have hR : addNewPosts ((c :: cs).map redditChildPost) seen =
            ((addNewPosts (cs.map redditChildPost) (c.data.id.getD "" :: seen)).1,
             redditChildPost c ::
               (addNewPosts (cs.map redditChildPost) (c.data.id.getD "" :: seen)).2.1,
             (addNewPosts (cs.map redditChildPost) (c.data.id.getD "" :: seen)).2.2 + 1) := by
          simp [addNewPosts, redditChildPost_id, hm]
        rw [hL, hR, hpost, ih _ hcs]
    · have hpost : redditChildPost c = parse_comment c.data := by
        simp [redditChildPost, h1]
      by_cases hm : c.data.id.getD "" ∈ seen
      · rw [show processChildren none (c :: cs) seen = processChildren none cs seen by
            simp [processChildren, hskip, hm]]
        rw [show addNewPosts ((c :: cs).map redditChildPost) seen =
              addNewPosts (cs.map redditChildPost) seen by
            simp [addNewPosts, redditChildPost_id, hm]]
        exact ih seen hcs
      · have hL : processChildren none (c :: cs) seen =
            ((processChildren none cs (c.data.id.getD "" :: seen)).1,
             parse_comment c.data ::
               (processChildren none cs (c.data.id.getD "" :: seen)).2.1,
             (processChildren none cs (c.data.id.getD "" :: seen)).2.2 + 1) := by
          simp [processChildren, hskipAll, hm, h1]
        have hR : addNewPosts ((c :: cs).map redditChildPost) seen =
            ((addNewPosts (cs.map redditChildPost) (c.data.id.getD "" :: seen)).1,
             redditChildPost c ::
               (addNewPosts (cs.map redditChildPost) (c.data.id.getD "" :: seen)).2.1,
             (addNewPosts (cs.map redditChildPost) (c.data.id.getD "" :: seen)).2.2 + 1) := by
          simp [addNewPosts, redditChildPost_id, hm]
        rw [hL, hR, hpost, ih _ hcs]

theorem xCollectGo_prefix (pages : Nat → XResponse) (limit : Option Nat) :
    ∀ (fuel pageNum : Nat) (seen : List String) (acc : List SavedPost),
      ∃ r, (xCollectGo (pureFetchX pages) limit fuel pageNum seen acc).1 =
          acc ++ r ∧
        r <+: dedupFrom seen (xItemsRange pages pageNum fuel) := by
  intro fuel
  induction fuel with
  | zero =>
    intro pageNum seen acc
    exact ⟨[], by simp [xCollectGo], List.nil_prefix⟩
  | succ n ih =>
    intro pageNum seen acc
    have hitems : xItemsRange pages pageNum (n + 1) =
        parse_graphql_response (pages pageNum) ++
          xItemsRange pages (pageNum + 1) n := rfl
    simp only [xCollectGo, pureFetchX]
    split
    · refine ⟨(addNewPosts (parse_graphql_response (pages pageNum)) seen).2.1,
        rfl, ?_⟩
      rw [addNewPosts_emitted, hitems, dedupFrom_append]
      exact List.prefix_append _ _
    · split
      · refine ⟨(addNewPosts (parse_graphql_response (pages pageNum)) seen).2.1,
          rfl, ?_⟩
        rw [addNewPosts_emitted, hitems, dedupFrom_append]
        exact List.prefix_append _ _
      · split
        · refine ⟨(addNewPosts (parse_graphql_response (pages pageNum)) seen).2.1,
            rfl, ?_⟩
          rw [addNewPosts_emitted, hitems, dedupFrom_append]
          exact List.prefix_append _ _
        · obtain ⟨r', h1, h2⟩ := ih (pageNum + 1)
            (addNewPosts (parse_graphql_response (pages pageNum)) seen).1
            (acc ++ (addNewPosts (parse_graphql_response (pages pageNum)) seen).2.1)
          refine ⟨(addNewPosts (parse_graphql_response (pages pageNum)) seen).2.1 ++ r',
            ?_, ?_⟩
          · dsimp only
            rw [h1, List.append_assoc]
          · rw [addNewPosts_emitted, hitems, dedupFrom_append]
            exact prefix_append_left _ h2

theorem redditCollectGo_prefix (pages : Nat → RedditResponse)
    (limit : Option Nat) (hwf : ∀ n, redditWellFormed (pages n) = true) :
    ∀ (fuel pageNum : Nat) (seen : List String) (acc : List SavedPost),
      ∃ r, (redditCollectGo (pureFetchR pages) none limit fuel pageNum seen acc).1 =
          acc ++ r ∧
        r <+: dedupFrom seen (redditItemsRange pages pageNum fuel) := by
  intro fuel
  induction fuel with
  | zero =>
    intro pageNum seen acc
    exact ⟨[], by simp [redditCollectGo], List.nil_prefix⟩
  | succ n ih =>
    intro pageNum seen acc
    have hwfp : ∀ c ∈ (pages pageNum).children,
        c.kind = some "t3" ∨ c.kind = some "t1" := by
      intro c hc
      have hall := hwf pageNum
      unfold redditWellFormed at hall
      rw [List.all_eq_true] at hall
      have h2 := hall c hc
      simpa using h2
    have hproc := processChildren_wf (pages pageNum).children seen hwfp
    have hitems : redditItemsRange pages pageNum (n + 1) =
        (pages pageNum).children.map redditChildPost ++
          redditItemsRange pages (pageNum + 1) n := rfl
    simp only [redditCollectGo, pureFetchR]
    split
    · exact ⟨[], by simp, List.nil_prefix⟩
    · rw [hproc]
      split
      · refine ⟨(addNewPosts ((pages pageNum).children.map redditChildPost) seen).2.1,
          rfl, ?_⟩
        rw [addNewPosts_emitted, hitems, dedupFrom_append]
        exact List.prefix_append _ _
      · split
        · refine ⟨(addNewPosts ((pages pageNum).children.map redditChildPost) seen).2.1,
            rfl, ?_⟩
          rw [addNewPosts_emitted, hitems, dedupFrom_append]
          exact List.prefix_append _ _
        · obtain ⟨r', h1, h2⟩ := ih (pageNum + 1)
            (addNewPosts ((pages pageNum).children.map redditChildPost) seen).1
            (acc ++ (addNewPosts ((pages pageNum).children.map redditChildPost) seen).2.1)
          refine ⟨(addNewPosts ((pages pageNum).children.map redditChildPost) seen).2.1 ++ r',
            ?_, ?_⟩
          · dsimp only
            rw [h1, List.append_assoc]
          · rw [addNewPosts_emitted, hitems, dedupFrom_append]
            exact prefix_append_left _ h2

theorem truncatePy_prefix {α : Type} (limit : Option Nat) (l : List α) :
    truncatePy limit l <+: l := by
  cases limit with
  | none => exact List.prefix_refl l
  | some n =>
    by_cases h : n = 0
    · simp [truncatePy, h]
    · simp only [truncatePy, if_neg h]
      exact List.take_prefix n l

theorem truncated_prefix_nodup (limit : Option Nat) {l D : List SavedPost}
    (hpre : l <+: D) (hnd : (D.map fun p => p.id).Nodup) :
    truncatePy limit l <+: D ∧
      ((truncatePy limit l).map fun p => p.id).Nodup := by
  have htr := truncatePy_prefix limit l
  have hpre' : truncatePy limit l <+: D := htr.trans hpre
  refine ⟨hpre', ?_⟩
  exact hnd.sublist (hpre'.sublist.map fun p => p.id)

/-- C4: for any sequence of raw pages, including pages repeating item
ids across pages, each collector's output contains each id at most once
(the output ids are nodup) and is a prefix of the first-seen
deduplication of the items in scan order (so output order is first-seen
order).  For Reddit this is stated for well-formed saved feeds (every
child a t3 submission or t1 comment, no kind filter); the X statement is
unconditional. -/
theorem C4_theorem (pagesX : Nat → XResponse) (pagesR : Nat → RedditResponse)
    (h : Headers) (limitX limitR : Option Nat) (maxPages : Nat) :
    (xGetBookmarks false (some h) (fun _ => pureFetchX pagesX) limitX maxPages <+:
        dedupFrom [] (xItemsRange pagesX 1 maxPages) ∧
      ((xGetBookmarks false (some h) (fun _ => pureFetchX pagesX) limitX
          maxPages).map fun p => p.id).Nodup) ∧
    ((∀ n, redditWellFormed (pagesR n) = true) →
      redditGetSaved false (some h) (fun _ => pureFetchR pagesR) none limitR
          maxPages <+:
        dedupFrom [] (redditItemsRange pagesR 1 maxPages) ∧
      ((redditGetSaved false (some h) (fun _ => pureFetchR pagesR) none limitR
          maxPages).map fun p => p.id).Nodup) := by
  constructor
  · obtain ⟨r, h1, h2⟩ := xCollectGo_prefix pagesX limitX maxPages 1 [] []
    have hout : xGetBookmarks false (some h) (fun _ => pureFetchX pagesX)
        limitX maxPages = truncatePy limitX r := by
      show truncatePy limitX
        (xCollectGo (pureFetchX pagesX) limitX maxPages 1 [] []).1 = _
      rw [h1, List.nil_append]
    rw [hout]
    exact truncated_prefix_nodup limitX h2 (dedupFrom_ids_nodup _ _).1
  · intro hwf
    obtain ⟨r, h1, h2⟩ := redditCollectGo_prefix pagesR limitR hwf maxPages 1 [] []
    have hout : redditGetSaved false (some h) (fun _ => pureFetchR pagesR)
        none limitR maxPages = truncatePy limitR r := by
      show truncatePy limitR
        (redditCollectGo (pureFetchR pagesR) none limitR maxPages 1 [] []).1 = _
      rw [h1, List.nil_append]
    rw [hout]
    exact truncated_prefix_nodup limitR h2 (dedupFrom_ids_nodup _ _).1

/-- C4 witness: the dedup and first-seen-order conclusions at a concrete
two-page run against repeating servers, with the well-formedness
hypothesis discharged on the concrete Reddit page. -/
theorem C4_witness :
    (xGetBookmarks false (some demoHeaders)
        (fun _ => pureFetchX fun _ => demoXResponse) none 2 <+:
      dedupFrom [] (xItemsRange (fun _ => demoXResponse) 1 2) ∧
    ((xGetBookmarks false (some demoHeaders)
        (fun _ => pureFetchX fun _ => demoXResponse) none 2).map
      fun p => p.id).Nodup) ∧
    (redditGetSaved false (some demoHeaders)
        (fun _ => pureFetchR fun _ => demoRedditPageDup) none none 2 <+:
      dedupFrom [] (redditItemsRange (fun _ => demoRedditPageDup) 1 2) ∧
    ((redditGetSaved false (some demoHeaders)
        (fun _ => pureFetchR fun _ => demoRedditPageDup) none none 2).map
      fun p => p.id).Nodup) :=
  ⟨(C4_theorem (fun _ => demoXResponse) (fun _ => demoRedditPageDup)
      demoHeaders none none 2).1,
   (C4_theorem (fun _ => demoXResponse) (fun _ => demoRedditPageDup)
      demoHeaders none none 2).2 fun _ => by decide⟩
